import Mathlib

/-!
Verification development for the OpenLiveStacker core: the blocking message
queue (`src/include/sync_queue.h`), the camera driver registry and the
format/option taxonomy (`src/src/camera.cpp`), and the frame/control dispatch
stage (`src/src/video_generator.cpp`).

Each definition is a shallow embedding of the corresponding C++ entity.
External effects (dlopen, dlsym, cv::imdecode) are modelled as oracle
parameters; log output is modelled as a list of message tags; pushing to an
output queue is modelled as appending an event to a trace.
-/

set_option maxHeartbeats 1000000
set_option linter.unusedVariables false

/-! ## Message queue (`src/include/sync_queue.h`)

The header declares a single member container `std::queue<T> data_`, yet
`push` calls `data_.push_back(v)` while `pop` reads `queue_.front()` and
calls `queue_.pop_front()` on a member `queue_` that is never declared.
We embed the two member names the functions actually reference as two list
fields. `pop` returns `none` when it cannot return an element: either the
wait loop on `data_` never ends, or `front()` is evaluated on an empty
container (undefined behaviour in C++). -/

structure sync_queue (T : Type) where
  data_ : List T
  queue_ : List T
deriving DecidableEq, Repr

def sync_queue.push {T : Type} (q : sync_queue T) (v : T) : sync_queue T :=
  { q with data_ := q.data_ ++ [v] }

def sync_queue.pop {T : Type} (q : sync_queue T) : Option (T × sync_queue T) :=
  if q.data_.isEmpty then
    none
  else
    match q.queue_ with
    | [] => none
    | x :: rest => some (x, { q with queue_ := rest })

def sync_queue.emptyQueue (T : Type) : sync_queue T := ⟨[], []⟩

/-! ## Format / option taxonomy (`src/src/camera.cpp`) -/

inductive CamStreamType where
  | stream_yuv2
  | stream_mjpeg
  | stream_rgb24
  | stream_rgb48
  | stream_raw8
  | stream_raw16
  | stream_mono8
  | stream_mono16
  | stream_error
deriving DecidableEq, Repr

inductive CamBayerType where
  | bayer_na
  | bayer_rg
  | bayer_gr
  | bayer_bg
  | bayer_gb
deriving DecidableEq, Repr

inductive CamOptionType where
  | type_bool
  | type_number
  | type_msec
  | type_percent
  | type_kelvin
  | type_celsius
deriving DecidableEq, Repr

/-- Embedding of `stream_type_to_str` (camera.cpp lines 114-128): the switch
covers the eight streamable formats; any other enumerator (`stream_error`)
falls to the default branch which throws `CamError`. -/
def stream_type_to_str : CamStreamType → Except String String
  | .stream_yuv2 => .ok "yuv2"
  | .stream_rgb24 => .ok "rgb24"
  | .stream_rgb48 => .ok "rgb48"
  | .stream_raw8 => .ok "raw8"
  | .stream_raw16 => .ok "raw16"
  | .stream_mono8 => .ok "mono8"
  | .stream_mono16 => .ok "mono16"
  | .stream_mjpeg => .ok "mjpeg"
  | .stream_error => .error "Invalid Stream type"

/-- Embedding of `stream_type_from_str` (camera.cpp lines 130-149), the
if-chain over the eight encodings. -/
def stream_type_from_str (s : String) : Except String CamStreamType :=
  if s = "mjpeg" then .ok .stream_mjpeg
  else if s = "yuv2" then .ok .stream_yuv2
  else if s = "rgb24" then .ok .stream_rgb24
  else if s = "rgb48" then .ok .stream_rgb48
  else if s = "raw8" then .ok .stream_raw8
  else if s = "raw16" then .ok .stream_raw16
  else if s = "mono8" then .ok .stream_mono8
  else if s = "mono16" then .ok .stream_mono16
  else .error ("Invalid stream type " ++ s)

/-- Embedding of `bayer_type_to_str` (camera.cpp lines 84-94); the switch is
exhaustive over the five enumerators, so the trailing throw is unreachable
and the embedding is total. -/
def bayer_type_to_str : CamBayerType → String
  | .bayer_na => "NA"
  | .bayer_rg => "RGGB"
  | .bayer_gr => "GRBG"
  | .bayer_bg => "BGGR"
  | .bayer_gb => "GBRG"

/-- Embedding of `bayer_type_from_str` (camera.cpp lines 96-104). -/
def bayer_type_from_str (s : String) : Except String CamBayerType :=
  if s = "NA" then .ok .bayer_na
  else if s = "RGGB" then .ok .bayer_rg
  else if s = "GRBG" then .ok .bayer_gr
  else if s = "BGGR" then .ok .bayer_bg
  else if s = "GBRG" then .ok .bayer_gb
  else .error ("Invalid bayer format " ++ s)

/-- The constant array `cam_option_type_names` (camera.cpp line 152). -/
def cam_option_type_names : List String :=
  ["bool", "number", "msec", "percent", "kelvin", "celsius"]

/-- Numeric value of each `CamOptionType` enumerator, used as the array
index in `cam_option_type_to_str`. -/
def CamOptionType.toIdx : CamOptionType → Nat
  | .type_bool => 0
  | .type_number => 1
  | .type_msec => 2
  | .type_percent => 3
  | .type_kelvin => 4
  | .type_celsius => 5

/-- Embedding of `cam_option_type_to_str` (camera.cpp lines 154-160): index
into the name array with a bound check that throws `CamError` out of range. -/
def cam_option_type_to_str (t : CamOptionType) : Except String String :=
  match cam_option_type_names.get? t.toIdx with
  | some s => .ok s
  | none => .error "Invalid type"

/-- Embedding of `cam_option_type_from_str` (camera.cpp lines 161-169): the
scan of the six-entry constant array, unrolled over its concrete entries in
index order (first match wins). -/
def cam_option_type_from_str (name : String) : Except String CamOptionType :=
  if name = "bool" then .ok .type_bool
  else if name = "number" then .ok .type_number
  else if name = "msec" then .ok .type_msec
  else if name = "percent" then .ok .type_percent
  else if name = "kelvin" then .ok .type_kelvin
  else if name = "celsius" then .ok .type_celsius
  else .error ("Invalid type:" ++ name)

/-- The eight stream-format string encodings (camera.cpp lines 114-149). -/
def stream_type_strings : List String :=
  ["yuv2", "mjpeg", "rgb24", "rgb48", "raw8", "raw16", "mono8", "mono16"]

/-- The five Bayer-pattern string encodings (camera.cpp lines 84-104). -/
def bayer_type_strings : List String :=
  ["NA", "RGGB", "GRBG", "BGGR", "GBRG"]

/-! ## Camera driver registry (`src/src/camera.cpp` lines 14-59)

The two parallel static vectors `driver_names` / `driver_calls` become the
two list fields. The external dynamic loader is an oracle `DlEnv`: whether
`dlopen` succeeds on a given path, whether `dlsym` finds a given symbol,
and what the optional config entry point returns. A factory function is
identified by the symbol name it was resolved from. `load_driver` returns
the new registry together with a flag telling whether the filesystem
(`dlopen`) was touched. -/

structure DriverRegistry where
  driver_names : List String
  driver_calls : List String
deriving DecidableEq, Repr

def DriverRegistry.emptyReg : DriverRegistry := ⟨[], []⟩

structure DlEnv where
  dlopen_ok : String → Bool
  dlsym_ok : String → Bool
  config_ret : String → Int

/-- Embedding of `CameraDriver::load_driver` (camera.cpp lines 17-44). -/
def load_driver (env : DlEnv) (reg : DriverRegistry) (name : String)
    (base_path : String) (opt : Option String) :
    Except String (DriverRegistry × Bool) :=
  if reg.driver_names.contains name then
    .ok (reg, false)
  else
    let bp := if base_path = "" then base_path else base_path ++ "/"
    if ¬ env.dlopen_ok (bp ++ "libols_driver_" ++ name ++ ".so") then
      .error ("Failed to load driver " ++ name)
    else if ¬ env.dlsym_ok ("ols_get_" ++ name ++ "_driver") then
      .error ("Failed to find driver entry for " ++ name)
    else
      let inserted : DriverRegistry :=
        { driver_names := name :: reg.driver_names,
          driver_calls := ("ols_get_" ++ name ++ "_driver") :: reg.driver_calls }
      match opt with
      | none => .ok (inserted, true)
      | some o =>
        if ¬ env.dlsym_ok ("ols_set_" ++ name ++ "_driver_config") then
          .error ("Failed to find driver config entry for " ++ name)
        else if env.config_ret o ≠ 0 then
          .error ("Failed to config driver for " ++ name)
        else .ok (inserted, true)

/-- Embedding of `CameraDriver::drivers` (camera.cpp lines 46-49). -/
def DriverRegistry.drivers (reg : DriverRegistry) : List String :=
  reg.driver_names

/-- Embedding of `CameraDriver::get` (camera.cpp lines 51-59).
`factory_null fac ext` is the oracle telling whether invoking factory `fac`
with external option `ext` returns a null pointer. The unsigned cast of a
negative `id` always exceeds the vector size, hence the `id < 0` disjunct.
On success the result names the factory that was invoked. -/
def DriverRegistry.get (factory_null : String → Int → Bool)
    (reg : DriverRegistry) (id : Int) (external_option : Int) :
    Except String String :=
  if id < 0 ∨ reg.driver_calls.length ≤ id.toNat then
    .error "Invalid driver id"
  else
    match reg.driver_calls.get? id.toNat with
    | none => .error "Invalid driver id"
    | some fac =>
      if factory_null fac external_option then
        .error ("Failed to load camera " ++ toString id)
      else .ok fac

/-- Sequences `load_driver` over a list of names (empty base path, no
config string), stopping at the first failure. -/
def load_seq (env : DlEnv) (reg : DriverRegistry) :
    List String → Except String DriverRegistry
  | [] => .ok reg
  | n :: rest =>
    match load_driver env reg n "" none with
    | .ok (r, _) => load_seq env r rest
    | .error e => .error e

/-- A loader environment in which every library and symbol resolves and
every config call returns 0. -/
def all_ok_env : DlEnv :=
  { dlopen_ok := fun _ => true, dlsym_ok := fun _ => true,
    config_ret := fun _ => 0 }

/-! ## Frame dispatch stage (`src/src/video_generator.cpp`)

State and message model. A `CameraFrame` carries the fields the dispatch
stage reads: the stream format descriptor, the Bayer tag, the byte size of
`source_frame`, the buffer content viewed as text (used only by the
`stream_error` branch), and an oracle bit telling whether `cv::imdecode`
would succeed on its buffer. An `id` distinguishes frames in traces. -/

structure CamFrameFormat where
  format : CamStreamType
  width : Nat
  height : Nat
deriving DecidableEq, Repr

structure CameraFrame where
  id : Nat
  format : CamFrameFormat
  bayer : CamBayerType
  source_size : Nat
  buffer_text : String
  decode_ok : Bool
deriving DecidableEq, Repr

inductive ControlOp where
  | ctl_init
  | ctl_pause
  | ctl_resume
  | ctl_save
  | ctl_cancel
  | ctl_update
deriving DecidableEq, Repr

structure StackerControl where
  op : ControlOp
  save_inputs : Bool
deriving DecidableEq, Repr

/-- The three booleans of `VideoGenerator` (video_generator.cpp lines
220-222). -/
structure VGState where
  stacking_active : Bool
  stacking_in_process : Bool
  debug_active : Bool
deriving DecidableEq, Repr

/-- Initial member values (video_generator.cpp lines 220-222). -/
def VGState.initial : VGState := ⟨false, false, false⟩

/-- Embedding of the `StackerControl` switch in `VideoGenerator::run`
(video_generator.cpp lines 187-208). -/
def applyControl (s : VGState) (c : StackerControl) : VGState :=
  match c.op with
  | .ctl_init =>
    { stacking_active := true, stacking_in_process := true,
      debug_active := c.save_inputs }
  | .ctl_resume =>
    { s with stacking_active := true, stacking_in_process := true }
  | .ctl_pause =>
    { s with stacking_active := false, stacking_in_process := true }
  | .ctl_save =>
    { s with stacking_active := false, stacking_in_process := false }
  | .ctl_cancel =>
    { s with stacking_active := false, stacking_in_process := false }
  | .ctl_update => s

/-- The control transition table exactly as the specification states it
(spec section 4.3), written independently of `applyControl` so the two can
be compared. -/
def spec_transition_table (s : VGState) (c : StackerControl) : VGState :=
  match c.op with
  | .ctl_init => ⟨true, true, c.save_inputs⟩
  | .ctl_resume => ⟨true, true, s.debug_active⟩
  | .ctl_pause => ⟨false, true, s.debug_active⟩
  | .ctl_save => ⟨false, false, s.debug_active⟩
  | .ctl_cancel => ⟨false, false, s.debug_active⟩
  | .ctl_update => s

/-- The image value handed around inside `process_frame`: a `cv::Mat`
wrapping the source buffer, the YUV-converted image, a demosaiced image
tagged with the OpenCV conversion routine used, the never-assigned default
`cv::Mat` of the invalid-Bayer fallthrough, the image decoded from a JPEG
buffer, or the raw JPEG byte buffer itself. -/
inductive ImageSrc where
  | bufferView
  | yuvConverted
  | demosaiced (routine : String)
  | emptyImage
  | decodedImage
  | sourceJpeg
deriving DecidableEq, Repr

structure JpegStackResult where
  jpeg_from : ImageSrc
  frame_mat : Option ImageSrc
deriving DecidableEq, Repr

/-- Embedding of `VideoGenerator::handle_jpeg_stack` (video_generator.cpp
lines 22-44): the JPEG rendition is always encoded from `img`; the working
matrix `frame->frame` is stored only when
`stacking_active_ || plate_solving_out_`. The `copy` argument selects
`image.clone()` over plain assignment, which stores the same image value
either way, and the linear rescaling before encoding does not change which
image is used; neither is tracked. -/
def handle_jpeg_stack (plate_reg : Bool) (s : VGState) (img : ImageSrc)
    (copy : Bool) : JpegStackResult :=
  { jpeg_from := img,
    frame_mat :=
      if s.stacking_active || plate_reg then some img else none }

/-- The first switch of `VideoGenerator::process_frame` (video_generator.cpp
lines 47-70): bytes per pixel for each format; `none` is the default branch
that logs `Got invalid format` and returns. -/
def bppOf : CamStreamType → Option Int
  | .stream_mjpeg => some (-1)
  | .stream_mono8 => some 1
  | .stream_raw8 => some 1
  | .stream_yuv2 => some 2
  | .stream_mono16 => some 2
  | .stream_raw16 => some 2
  | .stream_rgb24 => some 3
  | .stream_rgb48 => some 6
  | .stream_error => none

/-- Result of the per-format part of `process_frame` (everything before the
fan-out block): log lines, whether the function returned early (dropping
the frame), the image the JPEG rendition was produced from, the stored
working matrix, and the dynamic range that was set. -/
structure PipeOut where
  log : List String
  dropped : Bool
  jpeg_from : Option ImageSrc
  frame_mat : Option ImageSrc
  frame_dr : Option Nat
deriving DecidableEq, Repr

/-- Embedding of `VideoGenerator::process_frame` lines 47-160: the bpp
switch, the buffer-size check, and the per-format switch. An early
`return` in the C++ becomes `dropped := true`. -/
def pipeline (plate_reg : Bool) (s : VGState) (f : CameraFrame) : PipeOut :=
  match bppOf f.format.format with
  | none =>
    { log := ["Got invalid format"], dropped := true, jpeg_from := none,
      frame_mat := none, frame_dr := none }
  | some bpp =>
    if bpp > 0 ∧ (f.source_size : Int) ≠
        (f.format.height : Int) * (f.format.width : Int) * bpp then
      { log := ["Invalid frame size"], dropped := true, jpeg_from := none,
        frame_mat := none, frame_dr := none }
    else
      match f.format.format with
      | .stream_mjpeg =>
        if s.stacking_active || plate_reg then
          if f.decode_ok then
            { log := [], dropped := false, jpeg_from := some .sourceJpeg,
              frame_mat := some .decodedImage, frame_dr := some 255 }
          else
            { log := ["Failed to extract jpeg"], dropped := true,
              jpeg_from := some .sourceJpeg, frame_mat := none,
              frame_dr := none }
        else
          { log := [], dropped := false, jpeg_from := some .sourceJpeg,
            frame_mat := none, frame_dr := none }
      | .stream_yuv2 =>
        let h := handle_jpeg_stack plate_reg s ImageSrc.yuvConverted false
        { log := [], dropped := false, jpeg_from := some h.jpeg_from,
          frame_mat := h.frame_mat, frame_dr := some 255 }
      | .stream_rgb24 =>
        let h := handle_jpeg_stack plate_reg s ImageSrc.bufferView true
        { log := [], dropped := false, jpeg_from := some h.jpeg_from,
          frame_mat := h.frame_mat, frame_dr := some 255 }
      | .stream_rgb48 =>
        let h := handle_jpeg_stack plate_reg s ImageSrc.bufferView false
        { log := [], dropped := false, jpeg_from := some h.jpeg_from,
          frame_mat := h.frame_mat, frame_dr := some 65535 }
      | .stream_raw8 =>
        let conv : ImageSrc × List String :=
          match f.bayer with
          | .bayer_rg => (ImageSrc.demosaiced "COLOR_BayerBG2BGR", [])
          | .bayer_gr => (ImageSrc.demosaiced "COLOR_BayerGB2BGR", [])
          | .bayer_bg => (ImageSrc.demosaiced "COLOR_BayerRG2BGR", [])
          | .bayer_gb => (ImageSrc.demosaiced "COLOR_BayerGR2BGR", [])
          | .bayer_na => (ImageSrc.emptyImage, ["Invalid bayer patter"])
        let h := handle_jpeg_stack plate_reg s conv.1 false
        { log := conv.2, dropped := false, jpeg_from := some h.jpeg_from,
          frame_mat := h.frame_mat, frame_dr := some 255 }
      | .stream_raw16 =>
        let conv : ImageSrc × List String :=
          match f.bayer with
          | .bayer_rg => (ImageSrc.demosaiced "COLOR_BayerBG2BGR", [])
          | .bayer_gr => (ImageSrc.demosaiced "COLOR_BayerGB2BGR", [])
          | .bayer_bg => (ImageSrc.demosaiced "COLOR_BayerRG2BGR", [])
          | .bayer_gb => (ImageSrc.demosaiced "COLOR_BayerGR2BGR", [])
          | .bayer_na => (ImageSrc.emptyImage, ["Invalid bayer patter"])
        let h := handle_jpeg_stack plate_reg s conv.1 false
        { log := conv.2, dropped := false, jpeg_from := some h.jpeg_from,
          frame_mat := h.frame_mat, frame_dr := some 65535 }
      | .stream_mono8 =>
        let h := handle_jpeg_stack plate_reg s ImageSrc.bufferView true
        { log := [], dropped := false, jpeg_from := some h.jpeg_from,
          frame_mat := h.frame_mat, frame_dr := some 255 }
      | .stream_mono16 =>
        let h := handle_jpeg_stack plate_reg s ImageSrc.bufferView true
        { log := [], dropped := false, jpeg_from := some h.jpeg_from,
          frame_mat := h.frame_mat, frame_dr := some 65535 }
      | .stream_error =>
        { log := ["Got frame with error " ++ f.buffer_text], dropped := true,
          jpeg_from := none, frame_mat := none, frame_dr := none }

inductive OutQueue where
  | live
  | stack
  | debug
  | plate
deriving DecidableEq, Repr

/-- Embedding of the fan-out block of `process_frame` (video_generator.cpp
lines 161-167), in push order. -/
def fan_out (plate_reg : Bool) (s : VGState) (f : CameraFrame) :
    List (OutQueue × CameraFrame) :=
  [(OutQueue.live, f)]
    ++ (if s.stacking_active then [(OutQueue.stack, f)] else [])
    ++ (if s.debug_active && s.stacking_active then [(OutQueue.debug, f)] else [])
    ++ (if plate_reg && !s.stacking_in_process then [(OutQueue.plate, f)] else [])

structure FrameResult where
  log : List String
  dropped : Bool
  jpeg_from : Option ImageSrc
  frame_mat : Option ImageSrc
  frame_dr : Option Nat
  outputs : List (OutQueue × CameraFrame)
deriving DecidableEq, Repr

/-- Full embedding of `VideoGenerator::process_frame`: the per-format
pipeline followed, when no early return happened, by the fan-out pushes. -/
def process_frame (plate_reg : Bool) (s : VGState) (f : CameraFrame) :
    FrameResult :=
  let r := pipeline plate_reg s f
  { log := r.log, dropped := r.dropped, jpeg_from := r.jpeg_from,
    frame_mat := r.frame_mat, frame_dr := r.frame_dr,
    outputs := if r.dropped then [] else fan_out plate_reg s f }

/-- A data item popped from the input queue, after the chain of
`dynamic_pointer_cast` tests in `VideoGenerator::run`: `other` stands for
any pointer that is none of the three known types. -/
inductive QueueMsg where
  | frame (f : CameraFrame)
  | control (c : StackerControl)
  | shutdown
  | other
deriving DecidableEq, Repr

/-- A message pushed to an output queue by the dispatch stage. -/
inductive OutMsg where
  | frame (f : CameraFrame)
  | control (c : StackerControl)
  | shutdown
deriving DecidableEq, Repr

/-- Embedding of the `VideoGenerator::run` loop (video_generator.cpp lines
169-217) over a finite input list: the output trace of (queue, message)
pushes, in push order. A `ShutDownData` item is forwarded to live, stack
and debug and the loop breaks, ignoring the rest of the input. A frame is
processed with the current state (which it never changes); a control
message first updates the state, then is forwarded to live, stack and
debug; anything else is logged and skipped. -/
def runLoop (plate_reg : Bool) (s : VGState) :
    List QueueMsg → List (OutQueue × OutMsg)
  | [] => []
  | m :: rest =>
    match m with
    | .shutdown =>
      [(OutQueue.live, OutMsg.shutdown), (OutQueue.stack, OutMsg.shutdown),
       (OutQueue.debug, OutMsg.shutdown)]
    | .frame f =>
      ((process_frame plate_reg s f).outputs.map
        (fun p => (p.1, OutMsg.frame p.2)))
        ++ runLoop plate_reg s rest
    | .control c =>
      [(OutQueue.live, OutMsg.control c), (OutQueue.stack, OutMsg.control c),
       (OutQueue.debug, OutMsg.control c)]
        ++ runLoop plate_reg (applyControl s c) rest
    | .other => runLoop plate_reg s rest

/-! ## Concrete inputs used by the scenario properties -/

/-- A well-formed `mono8` frame: 10 by 10 pixels, a 100 byte buffer. -/
def mono8frame (n : Nat) : CameraFrame :=
  { id := n, format := { format := .stream_mono8, width := 10, height := 10 },
    bayer := .bayer_na, source_size := 100, buffer_text := "", decode_ok := true }

/-- The control/frame sequence init(debug := true), F1, pause, F2, resume,
save from the spec's state-machine scenario. -/
def scen_msgs : List QueueMsg :=
  [ .control { op := .ctl_init, save_inputs := true },
    .frame (mono8frame 1),
    .control { op := .ctl_pause, save_inputs := false },
    .frame (mono8frame 2),
    .control { op := .ctl_resume, save_inputs := false },
    .control { op := .ctl_save, save_inputs := false } ]

/-- A frame with the explicit error tag and a readable buffer. -/
def error_frame_example : CameraFrame :=
  { id := 0, format := { format := .stream_error, width := 3, height := 3 },
    bayer := .bayer_na, source_size := 14, buffer_text := "sensor failure",
    decode_ok := true }

/-- A `raw8` frame declaring 100 by 50 pixels with a 4999 byte buffer. -/
def raw8_bad_size_example : CameraFrame :=
  { id := 0, format := { format := .stream_raw8, width := 100, height := 50 },
    bayer := .bayer_rg, source_size := 4999, buffer_text := "",
    decode_ok := true }

/-- An `mjpeg` frame whose buffer size has no relation to its declared
dimensions; compressed frames undergo no size check. -/
def mjpeg_any_size_example : CameraFrame :=
  { id := 0, format := { format := .stream_mjpeg, width := 10, height := 10 },
    bayer := .bayer_na, source_size := 12345, buffer_text := "",
    decode_ok := true }

/-- A well-formed `raw8` frame (2 by 2, 4 bytes) whose Bayer tag is `NA`. -/
def raw8_bayer_na_example : CameraFrame :=
  { id := 0, format := { format := .stream_raw8, width := 2, height := 2 },
    bayer := .bayer_na, source_size := 4, buffer_text := "",
    decode_ok := true }

/-- The registry contents after loading drivers a, b, c in that order. -/
def regABC : DriverRegistry :=
  ⟨["c", "b", "a"], ["ols_get_c_driver", "ols_get_b_driver", "ols_get_a_driver"]⟩

/-! ## Helper lemmas -/

lemma process_frame_outputs_eq (plate : Bool) (s : VGState) (f : CameraFrame) :
    (process_frame plate s f).outputs =
      if (pipeline plate s f).dropped then [] else fan_out plate s f := rfl

lemma process_frame_dropped_eq (plate : Bool) (s : VGState) (f : CameraFrame) :
    (process_frame plate s f).dropped = (pipeline plate s f).dropped := rfl

lemma fan_out_no_plate (plate : Bool) (s : VGState) (f g : CameraFrame)
    (hip : s.stacking_in_process = true) :
    (OutQueue.plate, g) ∉ fan_out plate s f := by
  rcases s with ⟨a, ip, d⟩
  simp only at hip
  subst hip
  cases a <;> cases d <;> cases plate <;> simp [fan_out]

lemma fan_out_stack_mem_active (plate : Bool) (s : VGState) (f g : CameraFrame) :
    (OutQueue.stack, g) ∈ fan_out plate s f → s.stacking_active = true := by
  rcases s with ⟨a, ip, d⟩
  cases a <;> cases ip <;> cases d <;> cases plate <;> simp [fan_out]

lemma applyControl_keeps_inv (s : VGState) (c : StackerControl)
    (h : s.stacking_active = true → s.stacking_in_process = true) :
    (applyControl s c).stacking_active = true →
      (applyControl s c).stacking_in_process = true := by
  rcases c with ⟨op, si⟩
  cases op with
  | ctl_init => simp [applyControl]
  | ctl_pause => simp [applyControl]
  | ctl_resume => simp [applyControl]
  | ctl_save => simp [applyControl]
  | ctl_cancel => simp [applyControl]
  | ctl_update => exact h

lemma foldl_applyControl_inv (cs : List StackerControl) :
    ∀ (s : VGState), (s.stacking_active = true → s.stacking_in_process = true) →
      ((cs.foldl applyControl s).stacking_active = true →
        (cs.foldl applyControl s).stacking_in_process = true) := by
  induction cs with
  | nil => intro s h; exact h
  | cons c cs ih =>
    intro s h
    exact ih (applyControl s c) (applyControl_keeps_inv s c h)

/-- Counts the shutdown sentinels pushed to queue `q` in a trace. -/
def count_sentinels (q : OutQueue) : List (OutQueue × OutMsg) → Nat
  | [] => 0
  | (q2, m) :: rest =>
    (if q2 = q ∧ m = OutMsg.shutdown then 1 else 0) + count_sentinels q rest

lemma count_sentinels_append (q : OutQueue) (a b : List (OutQueue × OutMsg)) :
    count_sentinels q (a ++ b) = count_sentinels q a + count_sentinels q b := by
  induction a with
  | nil => simp [count_sentinels]
  | cons x a ih =>
    rcases x with ⟨q2, m⟩
    simp [count_sentinels, ih]
    omega

lemma count_sentinels_frame_map (q : OutQueue)
    (l : List (OutQueue × CameraFrame)) :
    count_sentinels q (l.map (fun p => (p.1, OutMsg.frame p.2))) = 0 := by
  induction l with
  | nil => rfl
  | cons x l ih => simp [count_sentinels, ih]

/-! ## Claim theorems -/

/-- Claim C1 (code bug witness). The claim says pop removes and returns the
earliest pushed, not yet popped message. In the code, `push` appends to the
member `data_` while `pop` waits on `data_` and then reads `front()` of a
member `queue_` that is never filled (and never even declared — the header
does not compile, since `std::queue` also has no `push_back`/`pop_front`).
So after a push the pop never returns the pushed element: evaluated at the
concrete input 42 it yields `none` (undefined `front()` on an empty
container), and no sequence of pushes ever makes `pop` return an element. -/
theorem C1_sync_queue_pop_never_returns_pushes :
    (sync_queue.push (sync_queue.emptyQueue Nat) 42).pop = none ∧
    ∀ (vs : List Nat),
      (vs.foldl sync_queue.push (sync_queue.emptyQueue Nat)).pop = none := by
  constructor
  · rfl
  · intro vs
    have hq : ∀ (q : sync_queue Nat),
        (vs.foldl sync_queue.push q).queue_ = q.queue_ := by
      induction vs with
      | nil => intro q; rfl
      | cons v vs ih => intro q; simpa [sync_queue.push] using ih _
    have h0 : (vs.foldl sync_queue.push (sync_queue.emptyQueue Nat)).queue_ = [] :=
      hq _
    simp [sync_queue.pop, h0]

/-- Claim C3: on every Control message the state is updated exactly per the
spec's transition table (init sets active and in-process and carries the
debug flag; resume sets both true; pause sets active false, in-process
true; save and cancel clear both; update changes nothing — debug unchanged
in all but init), and the message is then forwarded to exactly the live,
stack and debug outputs, in that order, before the loop continues with the
updated state; the plate-solving output is never among the control pushes. -/
theorem C3_control_transition_table :
    (∀ (s : VGState) (c : StackerControl),
       applyControl s c = spec_transition_table s c) ∧
    (∀ (plate : Bool) (s : VGState) (c : StackerControl)
        (rest : List QueueMsg),
       runLoop plate s (QueueMsg.control c :: rest) =
         [(OutQueue.live, OutMsg.control c),
          (OutQueue.stack, OutMsg.control c),
          (OutQueue.debug, OutMsg.control c)]
           ++ runLoop plate (applyControl s c) rest) ∧
    (∀ (plate : Bool) (s : VGState) (msgs : List QueueMsg)
        (c : StackerControl),
       (OutQueue.plate, OutMsg.control c) ∉ runLoop plate s msgs) := by
  refine ⟨?_, ?_, ?_⟩
  · intro s c
    rcases c with ⟨op, si⟩
    cases op <;> rfl
  · intro plate s c rest
    rfl
  · intro plate s msgs c
    induction msgs generalizing s with
    | nil => simp [runLoop]
    | cons m rest ih =>
      cases m with
      | shutdown => simp [runLoop]
      | frame f =>
        simp only [runLoop, List.mem_append, List.mem_map]
        rintro (⟨p, hp, hc⟩ | hmem)
        · simp [Prod.ext_iff] at hc
        · exact ih s hmem
      | control c2 =>
        simp only [runLoop, List.mem_append]
        rintro (hmem | hmem)
        · simp at hmem
        · exact ih (applyControl s c2) hmem
      | other => exact ih s

/-- Claim C4 (code bug witness). The claim says an error-tag frame's buffer
is interpreted as a UTF-8 message and logged, and the frame is dropped.
In the code the first switch of `process_frame` has no `stream_error`
case, so such a frame hits the default branch, logs `Got invalid format`
and returns; the dedicated `stream_error` branch of the second switch
(which would log `Got frame with error <buffer>`) is unreachable. The
frame IS dropped and forwarded nowhere, but the logged text is the
invalid-format message, evaluated here at a concrete error frame. -/
theorem C4_error_frame_dropped_at_format_switch :
    (process_frame false VGState.initial error_frame_example).dropped = true ∧
    (process_frame false VGState.initial error_frame_example).outputs = [] ∧
    (process_frame false VGState.initial error_frame_example).log =
      ["Got invalid format"] := by
  refine ⟨rfl, rfl, rfl⟩

/-- Claim C5: loading drivers a, then b, then c (all succeeding) yields
registry order [c, b, a]; `drivers()` lists most-recently-loaded first;
`get 0` invokes the factory resolved for c; and re-loading a name already
present returns successfully without touching the filesystem (for every
loader environment) leaving the registry unchanged. -/
theorem C5_driver_registry_order :
    (∀ (env : DlEnv) (reg : DriverRegistry) (name base_path : String)
        (opt : Option String),
       reg.driver_names.contains name = true →
         load_driver env reg name base_path opt = .ok (reg, false)) ∧
    load_seq all_ok_env DriverRegistry.emptyReg ["a", "b", "c"] =
      .ok regABC ∧
    regABC.drivers = ["c", "b", "a"] ∧
    DriverRegistry.get (fun _ _ => false) regABC 0 7 =
      .ok "ols_get_c_driver" ∧
    load_driver all_ok_env regABC "b" "" none = .ok (regABC, false) := by
  refine ⟨?_, by rfl, rfl, by rfl, by rfl⟩
  intro env reg name base_path opt h
  unfold load_driver
  rw [if_pos h]

/-- Claim C5 witness: the general re-load no-op conjunct applied at the
concrete registry [c, b, a] and the already-present name b. -/
theorem C5_driver_registry_order_witness :
    load_driver all_ok_env regABC "a" "some/path" (some "cfg") =
      .ok (regABC, false) :=
  C5_driver_registry_order.1 all_ok_env regABC "a" "some/path" (some "cfg")
    (by decide)

/-- Claim C7: when the dispatch loop meets a Shutdown sentinel it pushes
exactly one sentinel to each of live, stack and debug (and none to the
plate-solving queue), and terminates without reading anything that follows:
the trace does not depend on what comes after the sentinel. -/
theorem C7_shutdown_forwards_once_and_stops (plate : Bool) (s : VGState)
    (pre post : List QueueMsg) :
    runLoop plate s (pre ++ QueueMsg.shutdown :: post) =
      runLoop plate s (pre ++ [QueueMsg.shutdown]) ∧
    count_sentinels OutQueue.live
      (runLoop plate s (pre ++ QueueMsg.shutdown :: post)) = 1 ∧
    count_sentinels OutQueue.stack
      (runLoop plate s (pre ++ QueueMsg.shutdown :: post)) = 1 ∧
    count_sentinels OutQueue.debug
      (runLoop plate s (pre ++ QueueMsg.shutdown :: post)) = 1 ∧
    count_sentinels OutQueue.plate
      (runLoop plate s (pre ++ QueueMsg.shutdown :: post)) = 0 := by
  induction pre generalizing s with
  | nil => exact ⟨rfl, rfl, rfl, rfl, rfl⟩
  | cons m pre ih =>
    cases m with
    | shutdown => exact ⟨rfl, rfl, rfl, rfl, rfl⟩
    | frame f =>
      obtain ⟨h1, h2, h3, h4, h5⟩ := ih s
      refine ⟨?_, ?_, ?_, ?_, ?_⟩
      · simp [runLoop, h1]
      · simp [runLoop, count_sentinels_append, count_sentinels_frame_map, h2]
      · simp [runLoop, count_sentinels_append, count_sentinels_frame_map, h3]
      · simp [runLoop, count_sentinels_append, count_sentinels_frame_map, h4]
      · simp [runLoop, count_sentinels_append, count_sentinels_frame_map, h5]
    | control c =>
      obtain ⟨h1, h2, h3, h4, h5⟩ := ih (applyControl s c)
      refine ⟨?_, ?_, ?_, ?_, ?_⟩
      · simp [runLoop, h1]
      · simp [runLoop, count_sentinels, h2]
      · simp [runLoop, count_sentinels, h3]
      · simp [runLoop, count_sentinels, h4]
      · simp [runLoop, count_sentinels, h5]
    | other =>
      simpa [runLoop] using ih s

/-- The output trace expected from the scenario input `scen_msgs`. -/
def scen_expected : List (OutQueue × OutMsg) :=
  [ (.live, .control { op := .ctl_init, save_inputs := true }),
    (.stack, .control { op := .ctl_init, save_inputs := true }),
    (.debug, .control { op := .ctl_init, save_inputs := true }),
    (.live, .frame (mono8frame 1)),
    (.stack, .frame (mono8frame 1)),
    (.debug, .frame (mono8frame 1)),
    (.live, .control { op := .ctl_pause, save_inputs := false }),
    (.stack, .control { op := .ctl_pause, save_inputs := false }),
    (.debug, .control { op := .ctl_pause, save_inputs := false }),
    (.live, .frame (mono8frame 2)),
    (.live, .control { op := .ctl_resume, save_inputs := false }),
    (.stack, .control { op := .ctl_resume, save_inputs := false }),
    (.debug, .control { op := .ctl_resume, save_inputs := false }),
    (.live, .control { op := .ctl_save, save_inputs := false }),
    (.stack, .control { op := .ctl_save, save_inputs := false }),
    (.debug, .control { op := .ctl_save, save_inputs := false }) ]

/-- Claim C2: every frame that passes format processing is pushed to live
unconditionally, to stack iff stacking is active, to debug iff debug and
stacking are both active, and to plate-solving iff a plate-solving queue is
registered and no stacking session is in process; and in the scenario
init(debug := true), F1, pause, F2, resume, save, the trace shows F1 going
to live, stack and debug and F2 to live only. -/
theorem C2_frame_fan_out_rules :
    (∀ (plate : Bool) (s : VGState) (f : CameraFrame),
       (process_frame plate s f).dropped = false →
         ((OutQueue.live, f) ∈ (process_frame plate s f).outputs ∧
          ((OutQueue.stack, f) ∈ (process_frame plate s f).outputs ↔
            s.stacking_active = true) ∧
          ((OutQueue.debug, f) ∈ (process_frame plate s f).outputs ↔
            (s.debug_active && s.stacking_active) = true) ∧
          ((OutQueue.plate, f) ∈ (process_frame plate s f).outputs ↔
            (plate && !s.stacking_in_process) = true))) ∧
    runLoop false VGState.initial scen_msgs = scen_expected := by
  constructor
  · intro plate s f hnd
    have hd : (pipeline plate s f).dropped = false := hnd
    rw [process_frame_outputs_eq, hd]
    rcases s with ⟨a, ip, d⟩
    cases a <;> cases ip <;> cases d <;> cases plate <;> simp [fan_out]
  · rfl

/-- Claim C2 witness: the fan-out rule applied to a concrete well-formed
mono8 frame in the initial state with no plate-solving queue. -/
theorem C2_frame_fan_out_rules_witness :
    (OutQueue.live, mono8frame 1) ∈
      (process_frame false VGState.initial (mono8frame 1)).outputs ∧
    ((OutQueue.stack, mono8frame 1) ∈
        (process_frame false VGState.initial (mono8frame 1)).outputs ↔
      VGState.initial.stacking_active = true) ∧
    ((OutQueue.debug, mono8frame 1) ∈
        (process_frame false VGState.initial (mono8frame 1)).outputs ↔
      (VGState.initial.debug_active && VGState.initial.stacking_active) = true) ∧
    ((OutQueue.plate, mono8frame 1) ∈
        (process_frame false VGState.initial (mono8frame 1)).outputs ↔
      (false && !VGState.initial.stacking_in_process) = true) :=
  C2_frame_fan_out_rules.1 false VGState.initial (mono8frame 1) (by decide)

/-- Claim C6: a frame with a fixed-size format whose buffer length differs
from width times height times bytes-per-pixel is dropped and forwarded
nowhere; an mjpeg frame, having no fixed size, undergoes no such check. -/
theorem C6_fixed_size_mismatch_dropped :
    (∀ (plate : Bool) (s : VGState) (f : CameraFrame) (b : Int),
       bppOf f.format.format = some b →
       b > 0 →
       (f.source_size : Int) ≠
         (f.format.height : Int) * (f.format.width : Int) * b →
       (process_frame plate s f).dropped = true ∧
       (process_frame plate s f).outputs = []) ∧
    (process_frame false VGState.initial mjpeg_any_size_example).dropped =
      false := by
  constructor
  · intro plate s f b hb hbpos hne
    have hp : pipeline plate s f =
        { log := ["Invalid frame size"], dropped := true, jpeg_from := none,
          frame_mat := none, frame_dr := none } := by
      unfold pipeline
      rw [hb]
      dsimp only
      rw [if_pos ⟨hbpos, hne⟩]
    constructor
    · rw [process_frame_dropped_eq, hp]
    · rw [process_frame_outputs_eq, hp]
      rfl
  · rfl

/-- Claim C6 witness: the raw8 frame declaring 100 by 50 pixels with a
4999 byte buffer is dropped and reaches no output. -/
theorem C6_fixed_size_mismatch_dropped_witness :
    (process_frame false VGState.initial raw8_bad_size_example).dropped =
      true ∧
    (process_frame false VGState.initial raw8_bad_size_example).outputs =
      [] :=
  C6_fixed_size_mismatch_dropped.1 false VGState.initial
    raw8_bad_size_example 1 (by rfl) (by decide) (by decide)

/-- Claim C8: for every tag whose string encoding is defined, converting to
the string and back yields the tag, for stream formats, Bayer patterns and
option value types alike; and any string outside the defined encodings
makes the reverse conversion raise the domain error. -/
theorem C8_taxonomy_round_trip :
    (∀ (t : CamStreamType) (s : String),
       stream_type_to_str t = .ok s → stream_type_from_str s = .ok t) ∧
    (∀ (b : CamBayerType),
       bayer_type_from_str (bayer_type_to_str b) = .ok b) ∧
    (∀ (t : CamOptionType) (s : String),
       cam_option_type_to_str t = .ok s →
         cam_option_type_from_str s = .ok t) ∧
    (∀ (s : String), s ∉ stream_type_strings →
       ∃ e, stream_type_from_str s = .error e) ∧
    (∀ (s : String), s ∉ bayer_type_strings →
       ∃ e, bayer_type_from_str s = .error e) ∧
    (∀ (s : String), s ∉ cam_option_type_names →
       ∃ e, cam_option_type_from_str s = .error e) := by
  refine ⟨?_, ?_, ?_, ?_, ?_, ?_⟩
  · intro t s h
    cases t <;> simp [stream_type_to_str] at h <;> subst h <;> rfl
  · intro b
    cases b <;> rfl
  · intro t s h
    cases t <;>
      simp [cam_option_type_to_str, CamOptionType.toIdx,
        cam_option_type_names] at h <;>
      subst h <;> rfl
  · intro s h
    simp only [stream_type_strings, List.mem_cons, List.not_mem_nil,
      or_false, not_or] at h
    obtain ⟨h1, h2, h3, h4, h5, h6, h7, h8⟩ := h
    refine ⟨"Invalid stream type " ++ s, ?_⟩
    unfold stream_type_from_str
    rw [if_neg h2, if_neg h1, if_neg h3, if_neg h4, if_neg h5, if_neg h6,
      if_neg h7, if_neg h8]
  · intro s h
    simp only [bayer_type_strings, List.mem_cons, List.not_mem_nil,
      or_false, not_or] at h
    obtain ⟨h1, h2, h3, h4, h5⟩ := h
    refine ⟨"Invalid bayer format " ++ s, ?_⟩
    unfold bayer_type_from_str
    rw [if_neg h1, if_neg h2, if_neg h3, if_neg h4, if_neg h5]
  · intro s h
    simp only [cam_option_type_names, List.mem_cons, List.not_mem_nil,
      or_false, not_or] at h
    obtain ⟨h1, h2, h3, h4, h5, h6⟩ := h
    refine ⟨"Invalid type:" ++ s, ?_⟩
    unfold cam_option_type_from_str
    rw [if_neg h1, if_neg h2, if_neg h3, if_neg h4, if_neg h5, if_neg h6]

/-- Claim C8 witness: the round trip at concrete tags and the domain error
at a concrete unrecognized string. -/
theorem C8_taxonomy_round_trip_witness :
    stream_type_from_str "mjpeg" = Except.ok CamStreamType.stream_mjpeg ∧
    cam_option_type_from_str "kelvin" = Except.ok CamOptionType.type_kelvin ∧
    (∃ e, stream_type_from_str "bogus" = Except.error e) :=
  ⟨C8_taxonomy_round_trip.1 .stream_mjpeg "mjpeg" rfl,
   C8_taxonomy_round_trip.2.2.1 .type_kelvin "kelvin" rfl,
   C8_taxonomy_round_trip.2.2.2.1 "bogus" (by decide)⟩

/-- Claim C9: in every state reachable from the initial state by Control
messages, stacking_active implies stacking_in_process, and consequently no
frame processed in such a state is pushed to both the stacking output and
the plate-solving output. -/
theorem C9_no_stack_and_plate_solving (cs : List StackerControl) :
    ((cs.foldl applyControl VGState.initial).stacking_active = true →
      (cs.foldl applyControl VGState.initial).stacking_in_process = true) ∧
    (∀ (plate : Bool) (f g1 g2 : CameraFrame),
       (OutQueue.stack, g1) ∈
         (process_frame plate (cs.foldl applyControl VGState.initial)
           f).outputs →
       (OutQueue.plate, g2) ∉
         (process_frame plate (cs.foldl applyControl VGState.initial)
           f).outputs) := by
  have hinv := foldl_applyControl_inv cs VGState.initial (by decide)
  refine ⟨hinv, ?_⟩
  intro plate f g1 g2 hmem
  rw [process_frame_outputs_eq] at hmem ⊢
  cases hd : (pipeline plate (cs.foldl applyControl VGState.initial) f).dropped
  · simp only [hd, Bool.false_eq_true, if_false] at hmem ⊢
    have ha := fan_out_stack_mem_active _ _ _ _ hmem
    exact fan_out_no_plate _ _ _ _ (hinv ha)
  · simp [hd] at hmem

/-- Claim C9 witness: after a single init command (a reachable state with
stacking in process), a concrete frame pushed to the stacking output is
not pushed to the plate-solving output even with a plate-solving queue
registered. -/
theorem C9_no_stack_and_plate_solving_witness :
    (OutQueue.plate, mono8frame 3) ∉
      (process_frame true
        ([({ op := .ctl_init, save_inputs := false } : StackerControl)].foldl
          applyControl VGState.initial)
        (mono8frame 3)).outputs :=
  (C9_no_stack_and_plate_solving
      [{ op := .ctl_init, save_inputs := false }]).2
    true (mono8frame 3) (mono8frame 3) (mono8frame 3) (by decide)

/-- Claim C10: a raw8 or raw16 frame of correct buffer length whose Bayer
tag is NA is not dropped: the invalid pattern is logged, the JPEG rendition
is produced from the never-assigned (empty) color image, and the frame is
still fanned out, in particular to the live output. -/
theorem C10_invalid_bayer_not_dropped :
    ∀ (plate : Bool) (s : VGState) (f : CameraFrame),
      ((f.format.format = CamStreamType.stream_raw8 ∧
         (f.source_size : Int) =
           (f.format.height : Int) * (f.format.width : Int) * 1) ∨
       (f.format.format = CamStreamType.stream_raw16 ∧
         (f.source_size : Int) =
           (f.format.height : Int) * (f.format.width : Int) * 2)) →
      f.bayer = CamBayerType.bayer_na →
      ((process_frame plate s f).dropped = false ∧
       (process_frame plate s f).log = ["Invalid bayer patter"] ∧
       (process_frame plate s f).jpeg_from = some ImageSrc.emptyImage ∧
       (OutQueue.live, f) ∈ (process_frame plate s f).outputs) := by
  intro plate s f hfmt hb
  rcases hfmt with ⟨hf, hsz⟩ | ⟨hf, hsz⟩ <;>
    refine ⟨?_, ?_, ?_, ?_⟩ <;>
      simp [process_frame, pipeline, bppOf, hf, hb, hsz, handle_jpeg_stack,
        fan_out]

/-- Claim C10 witness: the concrete 2 by 2 raw8 frame with Bayer tag NA. -/
theorem C10_invalid_bayer_not_dropped_witness :
    (process_frame false VGState.initial raw8_bayer_na_example).dropped =
      false ∧
    (process_frame false VGState.initial raw8_bayer_na_example).log =
      ["Invalid bayer patter"] ∧
    (process_frame false VGState.initial raw8_bayer_na_example).jpeg_from =
      some ImageSrc.emptyImage ∧
    (OutQueue.live, raw8_bayer_na_example) ∈
      (process_frame false VGState.initial raw8_bayer_na_example).outputs :=
  C10_invalid_bayer_not_dropped false VGState.initial raw8_bayer_na_example
    (Or.inl ⟨rfl, by decide⟩) rfl
